import Mathlib

/-!
Shallow embedding of the ha-vesta cloud client core
(`custom_components/vesta/pygizwits` and `custom_components/vesta/vesta`).

Python dictionaries are modelled as association lists with insert-or-update
semantics; attribute values are modelled as JSON scalars (no claim exercises a
nested JSON object stored inside an attribute mapping).  Stateful methods are
modelled as explicit state-passing functions; a method that can raise returns
`Except PyErr`.  Network calls are modelled by passing the response (or the
outcome of the request) as an explicit argument.
-/

/-- Python dict lookup `m.get(k)`: the binding for the key, if any. -/
def dictGet {κ α : Type} [DecidableEq κ] (m : List (κ × α)) (k : κ) : Option α :=
  match m with
  | [] => none
  | (k0, v) :: rest => if k0 = k then some v else dictGet rest k

/-- Python dict assignment `m[k] = v`: update in place if the key is present,
otherwise append the new binding at the end. -/
def dictInsert {κ α : Type} [DecidableEq κ] (m : List (κ × α)) (k : κ) (v : α) :
    List (κ × α) :=
  match m with
  | [] => [(k, v)]
  | (k0, v0) :: rest =>
    if k0 = k then (k, v) :: rest else (k0, v0) :: dictInsert rest k v

/-- JSON scalar value appearing in device attribute mappings and API bodies. -/
inductive AttrVal where
  | num : Int → AttrVal
  | str : String → AttrVal
  | boolean : Bool → AttrVal
deriving DecidableEq, Repr

/-- Errors of the embedded programs: the typed exceptions of
`pygizwits/exceptions.py` and `vesta/api.py`, plain HTTP errors, and the
uncaught Python runtime exceptions the dispatch paths can raise. -/
inductive PyErr where
  | gizwitsException
  | gizwitsOffline
  | gizwitsDeviceNotBound
  | gizwitsTokenInvalid
  | gizwitsUserDoesNotExist
  | gizwitsIncorrectPassword
  | vestaNotRecognised
  | vestaTransport
  | httpStatus : Nat → PyErr
  | attributeError
  | keyError
deriving DecidableEq, Repr

/-- Device descriptor built by `GizwitsClient.get_bindings`
(`pygizwits/gizwits_device.py`, class `GizwitsDevice`).  The back references
to the client and the device manager are elided; `socketType` is the
`_socketType` field, always initialised to `"ssl_socket"`. -/
structure GizwitsDevice where
  device_id : String
  dev_alias : String
  product_name : String
  mac : String
  ws_port : Nat
  host : String
  wss_port : Nat
  protocol_version : Nat
  mcu_soft_version : String
  mcu_hard_version : String
  wifi_soft_version : String
  is_online : Bool
  attributes : List (String × AttrVal) := []
  socketType : String := "ssl_socket"
deriving DecidableEq, Repr

/-- Raw JSON entry of the `/app/bindings` response consumed by
`GizwitsClient.get_bindings`. -/
structure RawDevice where
  did : String
  dev_alias : String
  product_name : String
  mac : String
  ws_port : Nat
  host : String
  wss_port : Nat
  protoc : Nat
  mcu_soft_version : String
  mcu_hard_version : String
  wifi_soft_version : String
  is_online : Bool
deriving DecidableEq, Repr

/-- The `GizwitsDevice(...)` constructor call inside `get_bindings`. -/
def rawToDevice (r : RawDevice) : GizwitsDevice :=
  { device_id := r.did
    dev_alias := r.dev_alias
    product_name := r.product_name
    mac := r.mac
    ws_port := r.ws_port
    host := r.host
    wss_port := r.wss_port
    protocol_version := r.protoc
    mcu_soft_version := r.mcu_soft_version
    mcu_hard_version := r.mcu_hard_version
    wifi_soft_version := r.wifi_soft_version
    is_online := r.is_online }

/-- Payload of a `s2c_noti` push notification handed to
`DeviceManager.got_device_status_update` (`pygizwits/device_manager.py`). -/
structure PushUpdate where
  did : String
  attrs : List (String × AttrVal)
deriving DecidableEq, Repr

/-- Embedding of `DeviceManager.got_device_status_update`.  The registry lookup
`self.devices.get(did)` returns `None` for an unknown device; the following
attribute assignment on `None` raises `AttributeError` (the `cast` is a static
no-op).  For a known device the handler assigns `device_info.attributes =
device_update["attrs"]` and emits the updated device.  Returns the updated
registry together with the device passed to the `device_status_update` event. -/
def got_device_status_update (devices : List (String × GizwitsDevice))
    (device_update : PushUpdate) :
    Except PyErr (List (String × GizwitsDevice) × GizwitsDevice) :=
  match dictGet devices device_update.did with
  | none => .error .attributeError
  | some device_info =>
    let updated := { device_info with attributes := device_update.attrs }
    .ok (dictInsert devices device_update.did updated, updated)

/-- Loop of `GizwitsClient.get_bindings`.  The server is modelled as the list
of successful page responses, consumed one per request; an exhausted list means
the next request returns an empty `devices` array.  Each request is recorded as
its `(limit, skip)` query pair.  The loop requests another page exactly when the
page just received has exactly `limit` entries, bumping `skip` by `limit`. -/
def get_bindings_go (limit skip : Nat) (pages : List (List RawDevice))
    (bound_devices : List (String × GizwitsDevice)) (requests : List (Nat × Nat)) :
    List (String × GizwitsDevice) × List (Nat × Nat) :=
  match pages with
  | [] => (bound_devices, requests ++ [(limit, skip)])
  | page :: rest =>
    let requests := requests ++ [(limit, skip)]
    let bound_devices :=
      page.foldl (fun acc r => dictInsert acc r.did (rawToDevice r)) bound_devices
    if page.length = limit then get_bindings_go limit (skip + limit) rest bound_devices requests
    else (bound_devices, requests)

/-- Embedding of `GizwitsClient.get_bindings` with its hard-coded page size
`limit = 20`, starting at `skip = 0`, including the optional `device_types`
post-filter.  Transport failures abort the whole call in the source and are not
part of this model: the input is the sequence of successful page responses. -/
def get_bindings (pages : List (List RawDevice)) (device_types : Option (List String)) :
    List (String × GizwitsDevice) × List (Nat × Nat) :=
  let result := get_bindings_go 20 0 pages [] []
  match device_types with
  | some types =>
    (result.1.filter (fun kv => kv.2.product_name ∈ types), result.2)
  | none => result

/-- Embedding of `GizwitsClient.fetch_device`.  `latest_data` is the parsed
JSON body of `GET /app/devdata/{device_id}/latest`.  An unbound device raises
`GizwitsDeviceNotBound`; a missing `updated_at` key would raise `KeyError`.
When `updated_at == 0` the device is marked offline and its attributes are
cleared; otherwise the source stores the whole response object into
`device_info.attributes` (`device_info.attributes = latest_data`). -/
def fetch_device (devices : List (String × GizwitsDevice)) (device_id : String)
    (latest_data : List (String × AttrVal)) :
    Except PyErr (List (String × GizwitsDevice) × GizwitsDevice) :=
  match dictGet devices device_id with
  | none => .error .gizwitsDeviceNotBound
  | some device_info =>
    match dictGet latest_data "updated_at" with
    | none => .error .keyError
    | some api_update_timestamp =>
      if api_update_timestamp = .num 0 then
        let updated := { device_info with is_online := false, attributes := [] }
        .ok (dictInsert devices device_id updated, updated)
      else
        let updated := { device_info with attributes := latest_data }
        .ok (dictInsert devices device_id updated, updated)

/-- Outcome of an outbound HTTP POST, passed explicitly to the embeddings of
methods that perform one. -/
inductive PostResult where
  | posted
  | failed
deriving DecidableEq, Repr

/-- Embedding of `GizwitsClient.set_device_attributes`.  An unbound device
raises `GizwitsDeviceNotBound` before any request; a failing POST is wrapped
into a plain `GizwitsException`.  The method never touches the device
registry, so the registry is returned unchanged on every path. -/
def set_device_attributes (devices : List (String × GizwitsDevice))
    (device_id : String) (attributes : List (String × AttrVal))
    (post : PostResult) : Except PyErr Unit × List (String × GizwitsDevice) :=
  if (dictGet devices device_id).isSome then
    match post with
    | .posted => (.ok (), devices)
    | .failed => (.error .gizwitsException, devices)
  else (.error .gizwitsDeviceNotBound, devices)

/-- Body of the login request built by `GizwitsClient.get_token` and by
`VestaApi.get_user_token`. -/
structure LoginPayload where
  username : String
  password : String
  lang : String
deriving DecidableEq, Repr

/-- Payload sent by `GizwitsClient.get_token` (`pygizwits/gizwits_client.py`):
`{"username": username, "password": password[0:16], "lang": "en"}`. -/
def get_token_payload (username password : String) : LoginPayload :=
  { username := username, password := password.take 16, lang := "en" }

/-- Body sent by `VestaApi.get_user_token` (`vesta/api.py`):
`{"username": username, "password": password, "lang": "en"}`. -/
def get_user_token_body (username password : String) : LoginPayload :=
  { username := username, password := password, lang := "en" }

/-- Cached per-device state of `VestaApi` (`vesta/model.py`, class
`VestaDeviceStatus`): a server timestamp and the attribute mapping. -/
structure VestaDeviceStatus where
  timestamp : Int
  attrs : List (String × AttrVal)
deriving DecidableEq, Repr

/-- Parsed body of `GET {api_root}/app/devdata/{did}/latest` as consumed by
`VestaApi.fetch_data`: the code reads exactly the keys `updated_at` and
`attr`. -/
structure LatestData where
  updated_at : Int
  attr : List (String × AttrVal)
deriving DecidableEq, Repr

/-- Body of the per-device loop iteration of `VestaApi.fetch_data`
(`vesta/api.py`): a zero `updated_at` skips the device (`continue`); an update
strictly older than the cached timestamp is ignored; otherwise the cache entry
is replaced by `VestaDeviceStatus(latest_data["updated_at"],
latest_data["attr"])`.  The missing-cache default timestamp is `0`. -/
def fetch_data_step (state_cache : List (String × VestaDeviceStatus))
    (did : String) (latest_data : LatestData) :
    List (String × VestaDeviceStatus) :=
  if latest_data.updated_at = 0 then state_cache
  else
    let local_update_timestamp : Int :=
      match dictGet state_cache did with
      | some cached_state => cached_state.timestamp
      | none => 0
    if latest_data.updated_at < local_update_timestamp then state_cache
    else
      dictInsert state_cache did
        { timestamp := latest_data.updated_at, attrs := latest_data.attr }

/-- Embedding of `VestaApi.airjet_spa_set_target_temp` (`vesta/api.py`).  An
unknown device raises `VestaException` before any request.  The control POST
outcome is passed explicitly; the cache mutations (`cached_state.timestamp =
int(time())` and `cached_state.attrs["temp_set"] = target_temp`) follow the
`await` of the POST in the source, so they are reached only on a successful
POST.  `now` stands for `int(time())`. -/
def airjet_spa_set_target_temp (state_cache : List (String × VestaDeviceStatus))
    (device_id : String) (target_temp : Int) (now : Int) (post : PostResult) :
    Except PyErr Unit × List (String × VestaDeviceStatus) :=
  match dictGet state_cache device_id with
  | none => (.error .vestaNotRecognised, state_cache)
  | some cached_state =>
    match post with
    | .failed => (.error .vestaTransport, state_cache)
    | .posted =>
      let cached_state :=
        { cached_state with
          timestamp := now
          attrs := dictInsert cached_state.attrs "temp_set" (.num target_temp) }
      (.ok (), dictInsert state_cache device_id cached_state)

/-- The `ErrorCodes.ERROR_CODES` table of `pygizwits/exceptions.py`. -/
def ERROR_CODES : List (Int × PyErr) :=
  [(9004, .gizwitsTokenInvalid),
   (9005, .gizwitsUserDoesNotExist),
   (9042, .gizwitsOffline),
   (9020, .gizwitsIncorrectPassword)]

/-- Embedding of `ErrorCodes.get_exception`: dictionary lookup with the plain
`GizwitsException` class as the default. -/
def get_exception (error_code : Int) : PyErr :=
  (dictGet ERROR_CODES error_code).getD .gizwitsException

/-- An HTTP response as observed by `raise_for_status`: the `ok` flag, the
parsed JSON body (`none` when `response.json()` raises a JSON decode error)
and the HTTP status code. -/
structure HResp where
  ok : Bool
  body : Option (List (String × AttrVal))
  status : Nat
deriving DecidableEq, Repr

/-- Embedding of `raise_for_status` (`pygizwits/exceptions.py`).  An OK
response passes.  Otherwise: an undecodable body re-raises the HTTP error; a
decoded body yields `api_error.get("error_code", 0)` (a falsy body also gives
code `0`) and the exception class from `ErrorCodes.get_exception` is raised —
the class is always truthy, so the trailing `response.raise_for_status()` is
unreachable. -/
def raise_for_status (response : HResp) : Except PyErr Unit :=
  if response.ok then .ok ()
  else
    match response.body with
    | none => .error (.httpStatus response.status)
    | some api_error =>
      let error_code : Int :=
        match dictGet api_error "error_code" with
        | some (.num code) => code
        | _ => 0
      .error (get_exception error_code)

/-- Client-side session state of `GizwitsClient` relevant to re-login
behaviour: the stored credentials and a counter of login calls performed. -/
structure ClientState where
  token : String
  uid : String
  loginCalls : Nat
deriving DecidableEq, Repr

/-- Embedding of `GizwitsClient._get` together with everything the library
does with an authenticated-call failure: `raise_for_status` runs on the
response, and any resulting exception simply propagates to the caller — no
code path in the repository catches `GizwitsTokenInvalidException` to call
`login` again, so the client state (in particular `loginCalls`) is returned
unchanged.  The scheduled `refresh_token` task re-logs-in only at token
expiry. -/
def gizwits_get (st : ClientState) (response : HResp) :
    Except PyErr (List (String × AttrVal)) × ClientState :=
  match raise_for_status response with
  | .error e => (.error e, st)
  | .ok _ =>
    match response.body with
    | some response_json => (.ok response_json, st)
    | none => (.error .gizwitsException, st)

/-- Outbound WebSocket frame (`pygizwits/websocket_connection.py`).  The
`login_req` payload fields follow `WebsocketConnection.login`; the constant
`p0_type = "attrs_v4"` and `auto_subscribe = False` are elided. -/
inductive Frame where
  | login_req : String → String → String → Nat → Frame
  | subscribe_req : List String → Frame
  | ping : Frame
deriving DecidableEq, Repr

/-- Fields of the device manager field `GizwitsClient` read by
`WebsocketConnection.login`. -/
structure ClientInfo where
  app_id : String
  uid : String
  token : String
deriving DecidableEq, Repr

/-- State of one `WebsocketConnection`: the `logged_in` flag, the
`subscribed_devices` list, and the frames sent so far (in order).  The
heartbeat interval is the constant `ping_interval = 180`. -/
structure WSConn where
  logged_in : Bool := false
  subscribed_devices : List String := []
  sent : List Frame := []
deriving DecidableEq, Repr

/-- Sending a frame on a connection (`WebsocketConnection.send`). -/
def wsSend (conn : WSConn) (frame : Frame) : WSConn :=
  { conn with sent := conn.sent ++ [frame] }

/-- Embedding of `WebsocketConnection.login`: sends the `login_req` frame
built from the client fields and the heartbeat interval.  It does not wait for
the login response. -/
def ws_login (info : ClientInfo) (conn : WSConn) : WSConn :=
  wsSend conn (.login_req info.app_id info.uid info.token 180)

/-- Embedding of `WebsocketConnection.subscribe`: sends a `subscribe_req`
carrying the full given device-id list. -/
def ws_subscribe (conn : WSConn) (device_ids : List String) : WSConn :=
  wsSend conn (.subscribe_req device_ids)

/-- Embedding of `WebsocketConnection.add_device_sub`: copies the current
`subscribed_devices`, appends the new id, and subscribes with that full list.
It does not itself update `subscribed_devices`. -/
def add_device_sub (conn : WSConn) (did : String) : WSConn :=
  ws_subscribe conn (conn.subscribed_devices ++ [did])

/-- Embedding of `WebsocketConnection.handle_login_response`: sets
`logged_in` only when the `success` entry of the data dict is the boolean `True`; on any other payload the
connection state is untouched, and no frame is ever sent by this handler. -/
def handle_login_response (conn : WSConn) (data : List (String × AttrVal)) : WSConn :=
  if dictGet data "success" = some (.boolean true) then { conn with logged_in := true }
  else conn

/-- Embedding of `WebsocketConnection.handle_device_subscribe_response`: each
confirmed device id is appended to `subscribed_devices` unless already present
(the membership test runs against the list as it grows).  The per-device
`websocket_connection` back reference assignment is elided. -/
def handle_device_subscribe_response (conn : WSConn) (success_dids : List String) : WSConn :=
  { conn with
    subscribed_devices :=
      success_dids.foldl
        (fun acc did => if did ∈ acc then acc else acc ++ [did])
        conn.subscribed_devices }

/-- WebSocket-relevant state of the `DeviceManager`: the `sockets` registry,
keyed by the connection URL string. -/
structure DMState where
  sockets : List (String × WSConn) := []
deriving DecidableEq, Repr

/-- URL part of `GizwitsDevice.get_websocket_conn_info`: scheme and port are
chosen by `_socketType` (TLS by default), the path is fixed. -/
def get_websocket_conn_info (d : GizwitsDevice) : String :=
  if d.socketType = "ssl_socket" then
    "wss://" ++ d.host ++ ":" ++ toString d.wss_port ++ "/ws/app/v1"
  else
    "ws://" ++ d.host ++ ":" ++ toString d.ws_port ++ "/ws/app/v1"

/-- Embedding of `GizwitsDevice.subscribe_to_device_updates`.  If the manager
already holds a socket for the resolved URL, the device is added to that
connection via `add_device_sub`; otherwise a fresh connection is created,
`connect` starts the receive task (no frame), `login` sends the `login_req`,
`add_device_sub` sends the `subscribe_req` — without waiting for any inbound
frame — and the socket is stored under the URL. -/
def subscribe_to_device_updates (info : ClientInfo) (st : DMState)
    (d : GizwitsDevice) : DMState :=
  let websocket_url := get_websocket_conn_info d
  match dictGet st.sockets websocket_url with
  | some socket =>
    { st with sockets := dictInsert st.sockets websocket_url (add_device_sub socket d.device_id) }
  | none =>
    let socket := add_device_sub (ws_login info {}) d.device_id
    { st with sockets := dictInsert st.sockets websocket_url socket }

/-- Delivery of an inbound `subscribe_res` frame to the connection stored
under the given URL: the owning connection handler
`handle_device_subscribe_response` runs on the confirmed ids. -/
def deliver_subscribe_res (st : DMState) (url : String) (success_dids : List String) :
    DMState :=
  match dictGet st.sockets url with
  | some socket =>
    { st with sockets := dictInsert st.sockets url (handle_device_subscribe_response socket success_dids) }
  | none => st

/-- Payload of the `data` field of a parsed inbound frame, shaped per
command. -/
inductive WireData where
  | push : PushUpdate → WireData
  | loginData : List (String × AttrVal) → WireData
  | subData : List String → WireData
deriving DecidableEq, Repr

/-- An inbound WebSocket text message as seen by
`WebsocketConnection.handle_message`: either text that fails `json.loads`
(`invalid`), or a decoded object with its optional `cmd` and `data` fields. -/
inductive InMsg where
  | invalid : InMsg
  | frame : Option String → Option WireData → InMsg
deriving DecidableEq, Repr

/-- Embedding of `WebsocketConnection.handle_message` together with the
dispatch into the three recognised handlers.  The surrounding `try` catches
only `json.JSONDecodeError`, so undecodable text is logged and swallowed while
any exception raised by a handler — in particular the `AttributeError` from
`got_device_status_update` on an unknown device id — escapes.  Messages
missing `cmd` or `data`, and unknown commands, are logged and ignored.  The
debug dump of the message to a JSON file is elided. -/
def handle_message (conn : WSConn) (devices : List (String × GizwitsDevice))
    (message : InMsg) : Except PyErr (WSConn × List (String × GizwitsDevice)) :=
  match message with
  | .invalid => .ok (conn, devices)
  | .frame cmd data =>
    match cmd, data with
    | some c, some d =>
      if c = "login_res" then
        match d with
        | .loginData payload => .ok (handle_login_response conn payload, devices)
        | _ => .ok (conn, devices)
      else if c = "subscribe_res" then
        match d with
        | .subData dids => .ok (handle_device_subscribe_response conn dids, devices)
        | _ => .ok (conn, devices)
      else if c = "s2c_noti" then
        match d with
        | .push device_update =>
          match got_device_status_update devices device_update with
          | .error e => .error e
          | .ok (devices, _) => .ok (conn, devices)
        | _ => .ok (conn, devices)
      else .ok (conn, devices)
    | _, _ => .ok (conn, devices)

theorem dictGet_dictInsert_self {κ α : Type} [DecidableEq κ]
    (m : List (κ × α)) (k : κ) (v : α) :
    dictGet (dictInsert m k v) k = some v := by
  induction m with
  | nil => simp [dictGet, dictInsert]
  | cons kv rest ih =>
    by_cases h : kv.1 = k
    · simp [dictGet, dictInsert, h]
    · simp [dictGet, dictInsert, h, ih]

/-- Concrete device used to exercise the push-update path. -/
def c1Device : GizwitsDevice :=
  { device_id := "dev1"
    dev_alias := "spa"
    product_name := "Airjet"
    mac := "aa:bb"
    ws_port := 8080
    host := "h.example"
    wss_port := 8880
    protocol_version := 3
    mcu_soft_version := "1"
    mcu_hard_version := "1"
    wifi_soft_version := "1"
    is_online := false
    attributes := [("a", .num 1), ("b", .num 2)] }

/-- C1, counterexample: for the snapshot `{a:1,b:2}` and the push payload
`{b:3}`, `DeviceManager.got_device_status_update` leaves the device with
attribute mapping `{b:3}` — not the merged `{a:1,b:3}` the claim requires —
and the online flag is untouched (still `false`), so the push neither merges
at the attribute level nor marks the device online. -/
theorem c1_counterexample :
    (got_device_status_update [("dev1", c1Device)]
        { did := "dev1", attrs := [("b", .num 3)] }).toOption.map
      (fun r => (r.2.attributes, r.2.is_online)) =
      some ([("b", AttrVal.num 3)], false) ∧
    some ([("b", AttrVal.num 3)], false) ≠
      some ([("a", AttrVal.num 1), ("b", AttrVal.num 3)], true) := by
  exact ⟨rfl, by decide⟩

/-- C1, amended: applying a push update to a registered device replaces the
attribute mapping of the snapshot wholesale with the push payload (keys absent from
the payload are discarded) and leaves the online flag unchanged; the device is
not marked online. -/
theorem c1_push_update_replaces_attributes
    (devices : List (String × GizwitsDevice)) (u : PushUpdate) (d : GizwitsDevice)
    (h : dictGet devices u.did = some d) :
    got_device_status_update devices u =
      .ok (dictInsert devices u.did { d with attributes := u.attrs },
           { d with attributes := u.attrs }) ∧
    ({ d with attributes := u.attrs }).attributes = u.attrs ∧
    ({ d with attributes := u.attrs }).is_online = d.is_online := by
  refine ⟨?_, rfl, rfl⟩
  unfold got_device_status_update
  rw [h]

theorem c1_witness :
    dictGet [("dev1", c1Device)] "dev1" = some c1Device ∧
    (got_device_status_update [("dev1", c1Device)]
        { did := "dev1", attrs := [("b", .num 3)] } =
      .ok (dictInsert [("dev1", c1Device)] "dev1"
             { c1Device with attributes := [("b", .num 3)] },
           { c1Device with attributes := [("b", .num 3)] }) ∧
    ({ c1Device with attributes := [("b", .num 3)] }).attributes = [("b", .num 3)] ∧
    ({ c1Device with attributes := [("b", .num 3)] }).is_online = c1Device.is_online) :=
  ⟨rfl, c1_push_update_replaces_attributes [("dev1", c1Device)]
    { did := "dev1", attrs := [("b", .num 3)] } c1Device rfl⟩

/-- Concrete poll cache holding one snapshot with timestamp 5. -/
def c2Cache : List (String × VestaDeviceStatus) :=
  [("d1", { timestamp := 5, attrs := [("x", .num 1)] })]

/-- C2, counterexample: a poll update whose timestamp equals the cached
timestamp of the cached snapshot (5) is NOT discarded by `VestaApi.fetch_data`: the
snapshot is overwritten (`attrs` change from `{x:1}` to `{x:2}`), refuting
"a snapshot is only ever overwritten by one with a strictly newer
timestamp". -/
theorem c2_counterexample :
    fetch_data_step c2Cache "d1" { updated_at := 5, attr := [("x", .num 2)] } =
      [("d1", { timestamp := 5, attrs := [("x", AttrVal.num 2)] })] ∧
    fetch_data_step c2Cache "d1" { updated_at := 5, attr := [("x", .num 2)] } ≠
      c2Cache := by
  exact ⟨rfl, by decide⟩

/-- C2, amended: in `VestaApi.fetch_data`, a nonzero-timestamp poll update is
discarded exactly when its timestamp is strictly older than the cached
timestamp of the cached snapshot; an update whose timestamp is equal to or newer than the cached one
overwrites the snapshot. -/
theorem c2_poll_staleness_gate
    (state_cache : List (String × VestaDeviceStatus)) (did : String)
    (latest : LatestData) (cached : VestaDeviceStatus)
    (h : dictGet state_cache did = some cached)
    (h0 : latest.updated_at ≠ 0) :
    (latest.updated_at < cached.timestamp →
      fetch_data_step state_cache did latest = state_cache) ∧
    (cached.timestamp ≤ latest.updated_at →
      dictGet (fetch_data_step state_cache did latest) did =
        some { timestamp := latest.updated_at, attrs := latest.attr }) := by
  constructor
  · intro hlt
    unfold fetch_data_step
    rw [if_neg h0, h]
    simp [hlt]
  · intro hle
    unfold fetch_data_step
    rw [if_neg h0, h]
    have hnot : ¬ latest.updated_at < cached.timestamp := not_lt.mpr hle
    simp only [hnot, if_false]
    exact dictGet_dictInsert_self _ _ _

theorem c2_witness :
    dictGet c2Cache "d1" = some { timestamp := 5, attrs := [("x", AttrVal.num 1)] } ∧
    (5 : Int) ≠ 0 ∧
    (((5 : Int) < 5 →
      fetch_data_step c2Cache "d1" { updated_at := 5, attr := [("x", .num 2)] } = c2Cache) ∧
    ((5 : Int) ≤ 5 →
      dictGet (fetch_data_step c2Cache "d1" { updated_at := 5, attr := [("x", .num 2)] }) "d1" =
        some { timestamp := 5, attrs := [("x", AttrVal.num 2)] })) :=
  ⟨rfl, by decide,
   c2_poll_staleness_gate c2Cache "d1" { updated_at := 5, attr := [("x", .num 2)] }
     { timestamp := 5, attrs := [("x", AttrVal.num 1)] } rfl (by decide)⟩

/-- Distinctly-identified raw binding entry number `i` of the fake server. -/
def mkRaw (i : Nat) : RawDevice :=
  { did := toString i
    dev_alias := "alias"
    product_name := "Spa"
    mac := "aa:bb"
    ws_port := 8080
    host := "h.example"
    wss_port := 8880
    protoc := 3
    mcu_soft_version := "1"
    mcu_hard_version := "1"
    wifi_soft_version := "1"
    is_online := true }

/-- Fake binding server returning pages of sizes 20, 20 and 7, with 47
pairwise distinct device ids. -/
def c3Pages : List (List RawDevice) :=
  [(List.range 20).map mkRaw,
   (List.range 20).map (fun i => mkRaw (20 + i)),
   (List.range 7).map (fun i => mkRaw (40 + i))]

/-- C3: `GizwitsClient.get_bindings` paginates with `limit = 20` and `skip`
equal to the accumulated count: against a server returning pages of sizes
[20,20,7] it performs exactly the three requests `(limit 20, skip 0)`,
`(limit 20, skip 20)`, `(limit 20, skip 40)` and the returned registry holds
47 devices; against an empty first page it performs exactly one request and
returns an empty registry. -/
theorem c3_pagination :
    (get_bindings c3Pages none).2 = [(20, 0), (20, 20), (20, 40)] ∧
    (get_bindings c3Pages none).1.length = 47 ∧
    get_bindings [[]] none = ([], [(20, 0)]) := by
  refine ⟨by decide, by decide, by decide⟩

/-- C4: if the remote control POST fails, the locally cached snapshot is left
completely unchanged and the call surfaces an error: `VestaApi.
airjet_spa_set_target_temp` performs its optimistic merge (fresh timestamp and
written value) only after the POST succeeds, and `GizwitsClient.
set_device_attributes` never mutates the registry at all. -/
theorem c4_no_cache_mutation_on_failed_write
    (state_cache : List (String × VestaDeviceStatus)) (device_id : String)
    (target_temp now : Int) (devices : List (String × GizwitsDevice))
    (attributes : List (String × AttrVal)) :
    (airjet_spa_set_target_temp state_cache device_id target_temp now .failed).2 =
      state_cache ∧
    (airjet_spa_set_target_temp state_cache device_id target_temp now .failed).1 ≠
      .ok () ∧
    (set_device_attributes devices device_id attributes .failed).2 = devices ∧
    (set_device_attributes devices device_id attributes .failed).1 ≠ .ok () := by
  refine ⟨?_, ?_, ?_, ?_⟩
  · cases h : dictGet state_cache device_id <;>
      simp [airjet_spa_set_target_temp, h]
  · cases h : dictGet state_cache device_id <;>
      simp [airjet_spa_set_target_temp, h]
  · by_cases h : (dictGet devices device_id).isSome <;>
      simp [set_device_attributes, h]
  · by_cases h : (dictGet devices device_id).isSome <;>
      simp [set_device_attributes, h]

/-- Concrete device used to exercise the fresh-connection subscribe path. -/
def c5Device : GizwitsDevice :=
  { device_id := "dev1"
    dev_alias := "spa"
    product_name := "Airjet"
    mac := "aa:bb"
    ws_port := 8080
    host := "h.example"
    wss_port := 8880
    protocol_version := 3
    mcu_soft_version := "1"
    mcu_hard_version := "1"
    wifi_soft_version := "1"
    is_online := true }

/-- Concrete client credentials. -/
def c5Info : ClientInfo := { app_id := "app", uid := "uid", token := "tok" }

/-- C5, counterexample: on a freshly created connection,
`subscribe_to_device_updates` sends `subscribe_req` immediately after the
`login_req`, while `logged_in` is still `false` — that is, before any
login-success frame has been received on the connection — refuting "no
subscribe_req frame is sent on that connection before a login-success frame
has been received". -/
theorem c5_counterexample :
    dictGet (subscribe_to_device_updates c5Info {} c5Device).sockets
        (get_websocket_conn_info c5Device) =
      some { logged_in := false
             subscribed_devices := []
             sent := [.login_req "app" "uid" "tok" 180, .subscribe_req ["dev1"]] } := by
  decide

/-- C5, amended: a login response whose `success` field is not the boolean
`true` leaves the connection entirely unchanged (in particular `logged_in`
stays `false` and nothing is sent); however, a `subscribe_req` can be sent
before a login-success frame is received: on a fresh connection the subscribe
path sends `login_req` immediately followed by `subscribe_req` without
awaiting the login response. -/
theorem c5_login_gate_and_eager_subscribe
    (conn : WSConn) (data : List (String × AttrVal))
    (h : dictGet data "success" ≠ some (.boolean true)) :
    handle_login_response conn data = conn ∧
    ∀ (info : ClientInfo) (d : GizwitsDevice),
      dictGet (subscribe_to_device_updates info {} d).sockets
          (get_websocket_conn_info d) =
        some { logged_in := false
               subscribed_devices := []
               sent := [.login_req info.app_id info.uid info.token 180,
                        .subscribe_req [d.device_id]] } := by
  constructor
  · unfold handle_login_response
    rw [if_neg h]
  · intro info d
    simp [subscribe_to_device_updates, add_device_sub, ws_subscribe, ws_login,
      wsSend, dictGet, dictInsert]

theorem c5_witness :
    dictGet [("success", AttrVal.boolean false)] "success" ≠
      some (AttrVal.boolean true) ∧
    (handle_login_response { logged_in := false, subscribed_devices := [], sent := [] }
        [("success", .boolean false)] =
      { logged_in := false, subscribed_devices := [], sent := [] } ∧
    ∀ (info : ClientInfo) (d : GizwitsDevice),
      dictGet (subscribe_to_device_updates info {} d).sockets
          (get_websocket_conn_info d) =
        some { logged_in := false
               subscribed_devices := []
               sent := [.login_req info.app_id info.uid info.token 180,
                        .subscribe_req [d.device_id]] }) :=
  ⟨by decide,
   c5_login_gate_and_eager_subscribe
     { logged_in := false, subscribed_devices := [], sent := [] }
     [("success", .boolean false)] (by decide)⟩

/-- C6: two devices whose connectivity endpoints resolve to the same URL share
exactly one socket connection — the `sockets` registry is keyed by the
resolved endpoint, not by device identity — and the `subscribe_req` sent when
the second device subscribes (after the first subscription was confirmed)
carries the full current subscription set of the connection, i.e. both device
ids. -/
theorem c6_endpoint_multiplexing
    (info : ClientInfo) (d1 d2 : GizwitsDevice)
    (h : get_websocket_conn_info d2 = get_websocket_conn_info d1) :
    ((subscribe_to_device_updates info
        (deliver_subscribe_res (subscribe_to_device_updates info {} d1)
          (get_websocket_conn_info d1) [d1.device_id])
        d2).sockets).length = 1 ∧
    dictGet (subscribe_to_device_updates info
        (deliver_subscribe_res (subscribe_to_device_updates info {} d1)
          (get_websocket_conn_info d1) [d1.device_id])
        d2).sockets (get_websocket_conn_info d1) =
      some { logged_in := false
             subscribed_devices := [d1.device_id]
             sent := [.login_req info.app_id info.uid info.token 180,
                      .subscribe_req [d1.device_id],
                      .subscribe_req [d1.device_id, d2.device_id]] } := by
  constructor <;>
  · simp [subscribe_to_device_updates, deliver_subscribe_res,
      handle_device_subscribe_response, add_device_sub, ws_subscribe, ws_login,
      wsSend, dictGet, dictInsert, h]

/-- Second concrete device, sharing the host and TLS port of `c5Device` but with a
different device id. -/
def c6Device : GizwitsDevice :=
  { device_id := "dev2"
    dev_alias := "spa2"
    product_name := "Airjet"
    mac := "cc:dd"
    ws_port := 8080
    host := "h.example"
    wss_port := 8880
    protocol_version := 3
    mcu_soft_version := "1"
    mcu_hard_version := "1"
    wifi_soft_version := "1"
    is_online := true }

theorem c6_witness :
    get_websocket_conn_info c6Device = get_websocket_conn_info c5Device ∧
    (((subscribe_to_device_updates c5Info
        (deliver_subscribe_res (subscribe_to_device_updates c5Info {} c5Device)
          (get_websocket_conn_info c5Device) [c5Device.device_id])
        c6Device).sockets).length = 1 ∧
    dictGet (subscribe_to_device_updates c5Info
        (deliver_subscribe_res (subscribe_to_device_updates c5Info {} c5Device)
          (get_websocket_conn_info c5Device) [c5Device.device_id])
        c6Device).sockets (get_websocket_conn_info c5Device) =
      some { logged_in := false
             subscribed_devices := [c5Device.device_id]
             sent := [.login_req c5Info.app_id c5Info.uid c5Info.token 180,
                      .subscribe_req [c5Device.device_id],
                      .subscribe_req [c5Device.device_id, c6Device.device_id]] }) :=
  ⟨by decide, c6_endpoint_multiplexing c5Info c5Device c6Device (by decide)⟩

/-- Concrete poll cache for the zero-timestamp scenario. -/
def c7Cache : List (String × VestaDeviceStatus) :=
  [("d1", { timestamp := 5, attrs := [("x", .num 1)] })]

/-- C7, counterexample: in `VestaApi.fetch_data` a poll update with
`updated_at == 0` merely skips the device (`continue`): the previously cached
snapshot survives unchanged with its nonempty attribute mapping, refuting "the
empty/offline result holds regardless of what was cached before". -/
theorem c7_counterexample :
    fetch_data_step c7Cache "d1" { updated_at := 0, attr := [] } = c7Cache ∧
    (dictGet c7Cache "d1").map VestaDeviceStatus.attrs =
      some [("x", AttrVal.num 1)] ∧
    some [("x", AttrVal.num 1)] ≠ some ([] : List (String × AttrVal)) := by
  exact ⟨rfl, rfl, by decide⟩

/-- C7, amended: on a poll response with `updated_at == 0`,
`GizwitsClient.fetch_device` marks the bound device offline and empties its
attribute mapping regardless of prior state, while `VestaApi.fetch_data` skips
the device, leaving any previously cached snapshot unchanged. -/
theorem c7_zero_timestamp_paths
    (devices : List (String × GizwitsDevice)) (did : String)
    (d : GizwitsDevice) (latest : List (String × AttrVal))
    (h : dictGet devices did = some d)
    (h0 : dictGet latest "updated_at" = some (.num 0)) :
    fetch_device devices did latest =
      .ok (dictInsert devices did { d with is_online := false, attributes := [] },
           { d with is_online := false, attributes := [] }) ∧
    ∀ (cache : List (String × VestaDeviceStatus)) (did2 : String) (l2 : LatestData),
      l2.updated_at = 0 → fetch_data_step cache did2 l2 = cache := by
  constructor
  · unfold fetch_device
    rw [h, h0]
    simp
  · intro cache did2 l2 hz
    unfold fetch_data_step
    rw [if_pos hz]

/-- Concrete device with a nonempty cached attribute mapping, online. -/
def c7Device : GizwitsDevice :=
  { device_id := "dev1"
    dev_alias := "spa"
    product_name := "Airjet"
    mac := "aa:bb"
    ws_port := 8080
    host := "h.example"
    wss_port := 8880
    protocol_version := 3
    mcu_soft_version := "1"
    mcu_hard_version := "1"
    wifi_soft_version := "1"
    is_online := true
    attributes := [("a", .num 1)] }

theorem c7_witness :
    dictGet [("dev1", c7Device)] "dev1" = some c7Device ∧
    dictGet [("updated_at", AttrVal.num 0)] "updated_at" = some (AttrVal.num 0) ∧
    (fetch_device [("dev1", c7Device)] "dev1" [("updated_at", .num 0)] =
      .ok (dictInsert [("dev1", c7Device)] "dev1"
             { c7Device with is_online := false, attributes := [] },
           { c7Device with is_online := false, attributes := [] }) ∧
    ∀ (cache : List (String × VestaDeviceStatus)) (did2 : String) (l2 : LatestData),
      l2.updated_at = 0 → fetch_data_step cache did2 l2 = cache) :=
  ⟨rfl, rfl,
   c7_zero_timestamp_paths [("dev1", c7Device)] "dev1" c7Device
     [("updated_at", .num 0)] rfl rfl⟩

/-- Concrete failed response carrying vendor error code 9004. -/
def c8Resp : HResp :=
  { ok := false, body := some [("error_code", .num 9004)], status := 400 }

/-- Concrete client state after the one initial login. -/
def c8State : ClientState := { token := "tok", uid := "uid", loginCalls := 1 }

/-- C8, counterexample: an authenticated call answered with error code 9004
raises the token-invalid exception, but no automatic re-authentication
follows: the login-call count of the client stays at 1 — there is no observable
second login call, refuting that part of the claim. -/
theorem c8_counterexample :
    gizwits_get c8State c8Resp = (.error .gizwitsTokenInvalid, c8State) ∧
    (gizwits_get c8State c8Resp).2.loginCalls = 1 ∧ (1 : Nat) ≠ 2 := by
  exact ⟨rfl, rfl, by decide⟩

/-- C8, amended: a response with vendor error code 9004 on an authenticated
call raises `GizwitsTokenInvalidException` (not the generic
`GizwitsException`), and the exception propagates to the caller with the
client session state unchanged — no automatic re-login is attempted; a
re-authentication happens only through the scheduled token-expiry refresh
task. -/
theorem c8_token_invalid_propagates
    (st : ClientState) (resp : HResp) (body : List (String × AttrVal))
    (hok : resp.ok = false) (hb : resp.body = some body)
    (hc : dictGet body "error_code" = some (.num 9004)) :
    gizwits_get st resp = (.error .gizwitsTokenInvalid, st) := by
  unfold gizwits_get raise_for_status
  rw [hok, hb]
  simp [hc, get_exception, ERROR_CODES, dictGet]

theorem c8_witness :
    c8Resp.ok = false ∧
    c8Resp.body = some [("error_code", AttrVal.num 9004)] ∧
    dictGet [("error_code", AttrVal.num 9004)] "error_code" =
      some (AttrVal.num 9004) ∧
    gizwits_get c8State c8Resp = (.error .gizwitsTokenInvalid, c8State) :=
  ⟨rfl, rfl, rfl,
   c8_token_invalid_propagates c8State c8Resp [("error_code", .num 9004)]
     rfl rfl rfl⟩

/-- C9, counterexample: `VestaApi.get_user_token` sends the password to
`POST {api_root}/app/login` unchanged — for a 17-character password the body
carries all 17 characters, not only the first 16, refuting the claim for this
login path. -/
theorem c9_counterexample :
    (get_user_token_body "user" "abcdefghijklmnopq").password =
      "abcdefghijklmnopq" ∧
    "abcdefghijklmnopq".length = 17 ∧
    (get_user_token_body "user" "abcdefghijklmnopq").password ≠
      "abcdefghijklmnopq".take 16 := by
  exact ⟨rfl, by decide, by decide⟩

/-- C9, amended: `GizwitsClient.get_token` truncates the password in the login
body to its first 16 characters (`password[0:16]`), while
`VestaApi.get_user_token` sends the password unchanged, whatever its
length. -/
theorem c9_password_truncation (username password : String) :
    (get_token_payload username password).password = password.take 16 ∧
    (get_user_token_body username password).password = password := by
  constructor
  · simp [get_token_payload]
  · simp [get_user_token_body]

/-- C10: an inbound `s2c_noti` frame whose device id is not in the device
registry makes the dispatch path fail with the uncaught `AttributeError` from
`got_device_status_update` (the registry lookup yields `None` and its
`attributes` field is assigned); since `handle_message` catches only
JSON-decode errors — undecodable text is swallowed — this exception escapes
the per-message handler instead of the unknown device being ignored. -/
theorem c10_unknown_device_push_escapes
    (conn : WSConn) (devices : List (String × GizwitsDevice)) (u : PushUpdate)
    (h : dictGet devices u.did = none) :
    handle_message conn devices (.frame (some "s2c_noti") (some (.push u))) =
      .error .attributeError ∧
    handle_message conn devices .invalid = .ok (conn, devices) := by
  constructor
  · simp [handle_message, got_device_status_update, h]
  · rfl

theorem c10_witness :
    dictGet ([] : List (String × GizwitsDevice)) "ghost" = none ∧
    (handle_message { logged_in := false, subscribed_devices := [], sent := [] } []
        (.frame (some "s2c_noti") (some (.push { did := "ghost", attrs := [] }))) =
      .error .attributeError ∧
    handle_message { logged_in := false, subscribed_devices := [], sent := [] } []
        .invalid =
      .ok ({ logged_in := false, subscribed_devices := [], sent := [] }, [])) :=
  ⟨rfl,
   c10_unknown_device_push_escapes
     { logged_in := false, subscribed_devices := [], sent := [] } []
     { did := "ghost", attrs := [] } rfl⟩
